import Mathlib

/-!
# Verification of the rust-sigrok binding core

Shallow embedding of the session data-feed marshaller, the configuration
codec, the trigger builder and the lifecycle/cancellation logic of the
`sigrok` crate (`src/sigrok/src/{session.rs, lib.rs, error.rs, config/...}`).

Native libsigrok and glib are external collaborators reached through a fixed
C ABI; their entry points are modelled by their documented semantics (the
enum constant values below are the ones of the libsigrok headers that the
`sigrok-sys` bindgen crate mirrors).  Machine integers are modelled as
`Nat`/`Int` with explicit reduction modulo `2 ^ w` at every cast or
overflow-relevant operation.
-/

namespace Sigrok

/-! ## Native status codes (libsigrok `sr_error_code`, external ABI) -/

def SR_OK : Int := 0
def SR_ERR : Int := -1
def SR_ERR_MALLOC : Int := -2
def SR_ERR_ARG : Int := -3
def SR_ERR_BUG : Int := -4
def SR_ERR_SAMPLERATE : Int := -5
def SR_ERR_NA : Int := -6
def SR_ERR_DEV_CLOSED : Int := -7
def SR_ERR_TIMEOUT : Int := -8
def SR_ERR_CHANNEL_GROUP : Int := -9
def SR_ERR_DATA : Int := -10
def SR_ERR_IO : Int := -11

/-- The error taxonomy of `error.rs` (`pub enum SigrokError`). -/
inductive SigrokError where
  | Err
  | Malloc
  | Arg
  | Bug
  | SampleRate
  | NA
  | DevClosed
  | Timeout
  | ChannelGroup
  | Data
  | IOError
  | Unknown
  | NullError
  | GlibAcquireError
deriving DecidableEq, Repr

/-- `SigrokError::from(code)` of `error.rs`: translate a native status code
into `Result<(), SigrokError>`; unrecognized codes map to `Unknown`. -/
def SigrokError.fromCode (code : Int) : Except SigrokError Unit :=
  if code = SR_OK then .ok ()
  else if code = SR_ERR then .error .Err
  else if code = SR_ERR_MALLOC then .error .Malloc
  else if code = SR_ERR_ARG then .error .Arg
  else if code = SR_ERR_BUG then .error .Bug
  else if code = SR_ERR_SAMPLERATE then .error .SampleRate
  else if code = SR_ERR_NA then .error .NA
  else if code = SR_ERR_DEV_CLOSED then .error .DevClosed
  else if code = SR_ERR_TIMEOUT then .error .Timeout
  else if code = SR_ERR_CHANNEL_GROUP then .error .ChannelGroup
  else if code = SR_ERR_DATA then .error .Data
  else if code = SR_ERR_IO then .error .IOError
  else .error .Unknown

/-! ## `Session::add_device` (session.rs lines 322-333)

The function first calls the native `sr_dev_open` and translates its status
code; an `Ok` or an `Err(SigrokError::Err)` result (libsigrok returns
`SR_ERR` when the device is already open) lets it proceed, any other error
is returned by `?`.  On proceeding it calls `sr_session_dev_add` and returns
its translated status.  We model the two native calls by the status codes
they return; the `Bool` component records whether the attach call
(`sr_session_dev_add`) was reached. -/

def Session.add_device (openCode addCode : Int) :
    Except SigrokError Unit × Bool :=
  match SigrokError.fromCode openCode with
  | .ok _ => (SigrokError.fromCode addCode, true)
  | .error .Err => (SigrokError.fromCode addCode, true)
  | .error e => (.error e, false)

/-! ## Enum tables (`enums.rs`)

`MqType` and the measurement unit enum are mirrored from the
`define_enum!` invocations in `enums.rs`; the native constant values are
those of libsigrok's `sr_mq` and `sr_unit` (sequential from 10000).  The
Rust measurement unit enum is named `Unit`; it is renamed `SrUnit` here
to avoid the clash with Lean's core `Unit`. -/

inductive MqType where
  | Voltage | Current | Resistance | Capacitance | Temperature | Frequency
  | DutyCycle | Continuity | PulseWidth | Conductance | Power | Gain
  | SoundPressureLevel | CarbonMonoxide | RelativeHumidity | Time
  | WindSpeed | Pressure | ParallelInductance | ParallelCapacitance
  | ParallelResistance | SeriesInductance | SeriesCapacitance
  | SeriesResistance | DissipationFactor | QualityFactor | PhaseAngle
  | Difference | Count | PowerFactor | ApparentPower | Mass | HarmonicRatio
deriving DecidableEq, Repr

/-- `TryFrom<u32> for MqType` (generated by `define_enum!` in `enums.rs`):
match on the native `sr_mq` constants, unrecognized values fail. -/
def MqType.tryFrom (v : Nat) : Option MqType :=
  match v with
  | 10000 => some .Voltage
  | 10001 => some .Current
  | 10002 => some .Resistance
  | 10003 => some .Capacitance
  | 10004 => some .Temperature
  | 10005 => some .Frequency
  | 10006 => some .DutyCycle
  | 10007 => some .Continuity
  | 10008 => some .PulseWidth
  | 10009 => some .Conductance
  | 10010 => some .Power
  | 10011 => some .Gain
  | 10012 => some .SoundPressureLevel
  | 10013 => some .CarbonMonoxide
  | 10014 => some .RelativeHumidity
  | 10015 => some .Time
  | 10016 => some .WindSpeed
  | 10017 => some .Pressure
  | 10018 => some .ParallelInductance
  | 10019 => some .ParallelCapacitance
  | 10020 => some .ParallelResistance
  | 10021 => some .SeriesInductance
  | 10022 => some .SeriesCapacitance
  | 10023 => some .SeriesResistance
  | 10024 => some .DissipationFactor
  | 10025 => some .QualityFactor
  | 10026 => some .PhaseAngle
  | 10027 => some .Difference
  | 10028 => some .Count
  | 10029 => some .PowerFactor
  | 10030 => some .ApparentPower
  | 10031 => some .Mass
  | 10032 => some .HarmonicRatio
  | _ => none

inductive SrUnit where
  | Volt | Ampere | Ohm | Farad | Kelvin | Celsius | Fahrenheit | Hertz
  | Percentage | Boolean | Second | Siemens | DecibelMilliWatt
  | DecibelVolt | Unitless | DecibelSPL | Concentration
  | RevolutionsPerMinute | VoltAmpere | Watt | WattHour | MeterSecond
  | Hectopascal | Humidity293K | Degree | Henry | Gram | Carat | Ounce
  | TroyOunce | Pound | Pennyweight | Grain | Tael | Momme | Tola | Piece
deriving DecidableEq, Repr

/-- `TryFrom<u32> for Unit` (generated by `define_enum!` in `enums.rs`):
match on the native `sr_unit` constants, unrecognized values fail. -/
def SrUnit.tryFrom (v : Nat) : Option SrUnit :=
  match v with
  | 10000 => some .Volt
  | 10001 => some .Ampere
  | 10002 => some .Ohm
  | 10003 => some .Farad
  | 10004 => some .Kelvin
  | 10005 => some .Celsius
  | 10006 => some .Fahrenheit
  | 10007 => some .Hertz
  | 10008 => some .Percentage
  | 10009 => some .Boolean
  | 10010 => some .Second
  | 10011 => some .Siemens
  | 10012 => some .DecibelMilliWatt
  | 10013 => some .DecibelVolt
  | 10014 => some .Unitless
  | 10015 => some .DecibelSPL
  | 10016 => some .Concentration
  | 10017 => some .RevolutionsPerMinute
  | 10018 => some .VoltAmpere
  | 10019 => some .Watt
  | 10020 => some .WattHour
  | 10021 => some .MeterSecond
  | 10022 => some .Hectopascal
  | 10023 => some .Humidity293K
  | 10024 => some .Degree
  | 10025 => some .Henry
  | 10026 => some .Gram
  | 10027 => some .Carat
  | 10028 => some .Ounce
  | 10029 => some .TroyOunce
  | 10030 => some .Pound
  | 10031 => some .Pennyweight
  | 10032 => some .Grain
  | 10033 => some .Tael
  | 10034 => some .Momme
  | 10035 => some .Tola
  | 10036 => some .Piece
  | _ => none

/-- The `MqFlags` bitset of `enums.rs` (22 defined bits, libsigrok
`sr_mqflag` values 0x01 .. 0x200000). -/
structure MqFlags where
  bits : Nat
deriving DecidableEq, Repr

/-- The union of all defined `MqFlags` bits. -/
def MqFlags.MASK : Nat := 0x3FFFFF

/-- `bitflags`-generated `MqFlags::from_bits_truncate`: keep the defined
bits, drop the rest. -/
def MqFlags.from_bits_truncate (v : Nat) : MqFlags :=
  ⟨v &&& MqFlags.MASK⟩

/-- `Mq` of `enums.rs`: measured quantity type plus modifier flags. -/
structure Mq where
  mq_type : MqType
  flags : MqFlags
deriving DecidableEq, Repr

/-! ## Machine-integer casts

Rust `as` casts and arithmetic on fixed-width integers, modelled on `Nat`
and `Int` with explicit reduction modulo `2 ^ w`. -/

/-- `i as u64` (wrapping cast of a signed value). -/
def u64OfInt (i : Int) : Nat := (i % (2 : Int) ^ 64).toNat

/-- `i as u32` (wrapping cast of a signed value). -/
def u32OfInt (i : Int) : Nat := (i % (2 : Int) ^ 32).toNat

/-- `n as u32` for an unsigned 64-bit value. -/
def u32OfU64 (n : Nat) : Nat := n % 2 ^ 32

/-- `n as i64` for an unsigned 64-bit value (wrapping reinterpretation). -/
def i64OfU64 (n : Nat) : Int :=
  if n < 2 ^ 63 then (n : Int) else (n : Int) - 2 ^ 64

/-- `u32` multiplication (wrapping, as in release-mode Rust). -/
def u32Mul (a b : Nat) : Nat := a * b % 2 ^ 32

/-- `usize` multiplication on a 64-bit target (wrapping). -/
def usizeMul (a b : Nat) : Nat := a * b % 2 ^ 64

/-! ## `std::time::Duration` (external Rust std semantics) -/

def NANOS_PER_SEC : Nat := 1000000000

/-- `std::time::Duration`: seconds plus a sub-second nanosecond count. -/
structure Duration where
  secs : Nat
  nanos : Nat
deriving DecidableEq, Repr

/-- `Duration::new(secs, nanos)`: carries whole seconds out of the
nanosecond argument. -/
def Duration.new (secs nanos : Nat) : Duration :=
  ⟨secs + nanos / NANOS_PER_SEC, nanos % NANOS_PER_SEC⟩

/-- Total length of a `Duration` in nanoseconds. -/
def Duration.totalNanos (d : Duration) : Nat :=
  d.secs * NANOS_PER_SEC + d.nanos

/-! ## Datafeed event types (`session.rs`, `pub mod data`) -/

/-- `data::Header`: feed version plus session start time. -/
structure Header where
  feed_version : Int
  start_time : Duration
deriving DecidableEq, Repr

/-- `data::Logic`: bytes-per-sample plus the borrowed sample bytes. -/
structure Logic where
  unit_size : Nat
  data : List Nat
deriving DecidableEq, Repr

/-- The `AnalogFlags` bitset of `session.rs` (four defined bits). -/
structure AnalogFlags where
  signed : Bool
  floating_point : Bool
  big_endian : Bool
  decimal_digits : Bool
deriving DecidableEq, Repr

/-- `num_rational::Ratio<i64>` as built by `Ratio::new_raw`: the raw
numerator/denominator pair, no reduction. -/
structure RatioI64 where
  numer : Int
  denom : Int
deriving DecidableEq, Repr

/-- `data::Analog`: the decoded analog capture. -/
structure Analog where
  unit_size : Nat
  data : List Nat
  mq : Mq
  scale : RatioI64
  offset : RatioI64
  channels : Unit
  flags : AnalogFlags
  digits : Int
  unit : SrUnit
deriving Repr

/-- `data::Datafeed`: one decoded packet handed to the user callback. -/
inductive Datafeed where
  | Header (h : Header)
  | Logic (l : Logic)
  | Analog (a : Analog)
  | Trigger
  | FrameBegin
  | FrameEnd
  | End
deriving Repr

/-! ## Native packet structures (libsigrok ABI, read by the callback) -/

/-- libsigrok `sr_packettype` values (sequential from 10000), truncated to
`u16` by the comparisons in `sr_session_callback`. -/
def SR_DF_HEADER : Nat := 10000
def SR_DF_END : Nat := 10001
def SR_DF_META : Nat := 10002
def SR_DF_TRIGGER : Nat := 10003
def SR_DF_LOGIC : Nat := 10004
def SR_DF_FRAME_BEGIN : Nat := 10005
def SR_DF_FRAME_END : Nat := 10006
def SR_DF_ANALOG : Nat := 10007

/-- A C `struct timeval` (`tv_sec` seconds, `tv_usec` microseconds). -/
structure SrTimeVal where
  tv_sec : Int
  tv_usec : Int
deriving DecidableEq, Repr

/-- Native `sr_datafeed_header`. -/
structure SrDatafeedHeader where
  feed_version : Int
  starttime : SrTimeVal
deriving DecidableEq, Repr

/-- Native `sr_datafeed_logic`: byte length, bytes per sample and the data
pointer (modelled as an address into the byte memory). -/
structure SrDatafeedLogic where
  length : Nat
  unitsize : Nat
  dataAddr : Nat
deriving DecidableEq, Repr

/-- Native `sr_rational`: signed numerator `p`, unsigned denominator `q`. -/
structure SrRational where
  p : Int
  q : Nat
deriving DecidableEq, Repr

/-- Native `sr_analog_encoding`. -/
structure SrAnalogEncoding where
  unitsize : Nat
  is_signed : Int
  is_float : Int
  is_bigendian : Int
  is_digits_decimal : Int
  scale : SrRational
  offset : SrRational
  digits : Int
deriving DecidableEq, Repr

/-- Native `sr_analog_meaning`: enums carried as raw `u32` values. -/
structure SrAnalogMeaning where
  mq : Nat
  unit : Nat
  mqflags : Nat
deriving DecidableEq, Repr

/-- Native `sr_datafeed_analog`. -/
structure SrDatafeedAnalog where
  encoding : SrAnalogEncoding
  meaning : SrAnalogMeaning
  num_samples : Nat
  dataAddr : Nat
deriving DecidableEq, Repr

/-- The raw `void *payload` of a packet, tagged with what it points to.
The C callback casts the pointer according to the packet kind; a
mismatched cast reads junk, modelled by the default values below. -/
inductive SrPayload where
  | header (h : SrDatafeedHeader)
  | logic (l : SrDatafeedLogic)
  | analog (a : SrDatafeedAnalog)
  | null
deriving Repr

def SrPayload.asHeader : SrPayload → SrDatafeedHeader
  | .header h => h
  | _ => ⟨0, ⟨0, 0⟩⟩

def SrPayload.asLogic : SrPayload → SrDatafeedLogic
  | .logic l => l
  | _ => ⟨0, 0, 0⟩

def SrPayload.asAnalog : SrPayload → SrDatafeedAnalog
  | .analog a => a
  | _ => ⟨⟨0, 0, 0, 0, 0, ⟨0, 0⟩, ⟨0, 0⟩, 0⟩, ⟨0, 0, 0⟩, 0, 0⟩

/-- Native `sr_datafeed_packet`: kind tag (`u16`) plus payload pointer. -/
structure SrDatafeedPacket where
  type_ : Nat
  payload : SrPayload
deriving Repr

/-- Byte memory backing the native sample buffers. -/
def Mem : Type := Nat → Nat

/-- `slice::from_raw_parts(addr, len)` over the byte memory. -/
def sliceFromRawParts (mem : Mem) (addr len : Nat) : List Nat :=
  (List.range len).map fun i => mem (addr + i)

/-! ## The datafeed marshaller (`sr_session_callback`, session.rs 208-289)

Each branch of the if-chain below embeds the corresponding branch of the
callback.  The callback reconstructs a transient `Device` from the
packet's instance pointer (panicking if the instance has no driver) and
then invokes the user callback once per decoded event; the model assumes
a well-formed instance and returns the list of events handed to the user
callback, in order. -/

/-- The `SR_DF_HEADER` branch: feed version as `i32`, start time as
`Duration::new(tv_sec as u64, (tv_usec as u32) * 1000)`. -/
def decodeHeader (h : SrDatafeedHeader) : Header :=
  { feed_version := h.feed_version
    start_time :=
      Duration.new (u64OfInt h.starttime.tv_sec)
        (u32Mul (u32OfInt h.starttime.tv_usec) 1000) }

/-- The `SR_DF_LOGIC` branch: a borrowed view of exactly `length` bytes. -/
def decodeLogic (mem : Mem) (l : SrDatafeedLogic) : Logic :=
  { unit_size := l.unitsize
    data := sliceFromRawParts mem l.dataAddr l.length }

/-- The `SR_DF_ANALOG` branch of the callback. -/
def decodeAnalog (mem : Mem) (a : SrDatafeedAnalog) : Analog :=
  let encoding := a.encoding
  let meaning := a.meaning
  let unit_size := encoding.unitsize
  { unit_size := unit_size
    data := sliceFromRawParts mem a.dataAddr (usizeMul a.num_samples unit_size)
    mq :=
      { mq_type := (MqType.tryFrom meaning.mq).getD .Voltage
        flags := MqFlags.from_bits_truncate meaning.mqflags }
    scale := { numer := encoding.scale.p, denom := i64OfU64 encoding.scale.q }
    offset := { numer := encoding.offset.p, denom := i64OfU64 encoding.offset.q }
    channels := ()
    flags :=
      { signed := encoding.is_signed != 0
        floating_point := encoding.is_float != 0
        big_endian := encoding.is_bigendian != 0
        decimal_digits := encoding.is_digits_decimal != 0 }
    digits := encoding.digits
    unit := (SrUnit.tryFrom meaning.unit).getD .Volt }

/-- `sr_session_callback`: dispatch on the packet-kind tag; the result is
the sequence of user-callback invocations this one packet produces.  The
`SR_DF_META` branch only prints a placeholder and invokes nothing. -/
def sr_session_callback (mem : Mem) (packet : SrDatafeedPacket) :
    List Datafeed :=
  let kind := packet.type_
  if kind = SR_DF_HEADER then
    [.Header (decodeHeader packet.payload.asHeader)]
  else if kind = SR_DF_LOGIC then
    [.Logic (decodeLogic mem packet.payload.asLogic)]
  else if kind = SR_DF_ANALOG then
    [.Analog (decodeAnalog mem packet.payload.asAnalog)]
  else if kind = SR_DF_END then
    [.End]
  else if kind = SR_DF_META then
    []
  else if kind = SR_DF_TRIGGER then
    [.Trigger]
  else if kind = SR_DF_FRAME_BEGIN then
    [.FrameBegin]
  else if kind = SR_DF_FRAME_END then
    [.FrameEnd]
  else
    []

/-- The native dispatcher hands the callback each packet in turn; the
produced events are those of each packet, in packet order. -/
def sessionRun (mem : Mem) : List SrDatafeedPacket → List Datafeed
  | [] => []
  | p :: ps => sr_session_callback mem p ++ sessionRun mem ps

/-- The packet kinds for which the callback invokes the user callback. -/
def recognizedKind (k : Nat) : Bool :=
  k = SR_DF_HEADER || k = SR_DF_LOGIC || k = SR_DF_ANALOG ||
  k = SR_DF_END || k = SR_DF_TRIGGER || k = SR_DF_FRAME_BEGIN ||
  k = SR_DF_FRAME_END

/-! ## Triggers (`session.rs` 91-206, 342-354)

`Triggers::new` drives the native incremental builder: `sr_trigger_new`
allocates an empty trigger, `sr_trigger_stage_add` appends one stage,
`sr_trigger_match_add` appends one match to a stage (GSList append
semantics, order preserving).  Allocation is assumed to succeed.  The
`f32` comparison value is carried opaquely (as its bit pattern); the
binding only copies it through to the native call. -/

/-- `TriggerType` of `enums.rs` (native `sr_trigger_matches`). -/
inductive TriggerType where
  | Zero | One | Rising | Falling | Edge | Over | Under
deriving DecidableEq, Repr

/-- `From<TriggerType> for i32` (native constants 1..7). -/
def TriggerType.toInt : TriggerType → Int
  | .Zero => 1
  | .One => 2
  | .Rising => 3
  | .Falling => 4
  | .Edge => 5
  | .Over => 6
  | .Under => 7

/-- `Trigger` of `session.rs`: channel (modelled by its native pointer),
match kind, and the `f32` comparison value (bit pattern). -/
structure Trigger where
  channel : Nat
  trigger_match : TriggerType
  value : Nat
deriving DecidableEq, Repr

/-- One native trigger match as installed by `sr_trigger_match_add`. -/
structure SrTriggerMatch where
  channel : Nat
  match_ : Int
  value : Nat
deriving DecidableEq, Repr

/-- One native trigger stage: its ordered match list. -/
structure SrTriggerStage where
  /-- the `matches` GSList (renamed: `matches` is a Lean keyword). -/
  matches_ : List SrTriggerMatch
deriving DecidableEq, Repr

/-- The native `sr_trigger` structure: its ordered stage list. -/
structure SrTrigger where
  stages : List SrTriggerStage
deriving DecidableEq, Repr

/-- The match record `sr_trigger_match_add` builds from one `Trigger`. -/
def Trigger.toMatch (t : Trigger) : SrTriggerMatch :=
  { channel := t.channel, match_ := t.trigger_match.toInt, value := t.value }

/-- The stage the builder loop produces from one stage's trigger list. -/
def buildStage (st : List Trigger) : SrTriggerStage :=
  { matches_ := st.map Trigger.toMatch }

/-- `Triggers::new`: build the native structure, then return the distinct
null form (`AutoDrop::null`) when the stage list is empty or the first
stage has no matches; `none` is the null form. -/
def Triggers.new (trigger_stages : List (List Trigger)) : Option SrTrigger :=
  let raw : SrTrigger := { stages := trigger_stages.map buildStage }
  match raw.stages with
  | [] => none
  | s :: _ => if s.matches_ = [] then none else some raw

/-- `Session::set_triggers`: the `sr_trigger` pointer passed to the native
`sr_session_trigger_set` — null for `None` and for the null form. -/
def Session.set_triggers : Option (Option SrTrigger) → Option SrTrigger
  | some t => t
  | none => none

/-! ## `Driver::init` (`lib.rs` 146-158) and `DriverContext::drop` -/

/-- The observable state of a `Driver`: its identity strings and whether
the native `(*context).context` pointer is currently null
(`DriverContext::drop` resets it to null). -/
structure DriverInfo where
  name : String
  long_name : String
  ctx_is_null : Bool
deriving DecidableEq, Repr

/-- The `panic!` format string of `Driver::init` applied to the driver. -/
def driverInitPanicMsg (d : DriverInfo) : String :=
  "Driver \"" ++ d.name ++ "\" (" ++ d.long_name ++ ") already initialized"

/-- Either a panic (with its message) or a normal return. -/
inductive InitOutcome where
  | panicked (msg : String)
  | returned (r : Except SigrokError Unit)
deriving Repr

/-- `Driver::init`: panic when the native context is already non-null,
otherwise call `sr_driver_init` (modelled by its status code) and wrap
the driver on success. -/
def Driver.init (d : DriverInfo) (initCode : Int) : InitOutcome :=
  if !d.ctx_is_null then .panicked (driverInitPanicMsg d)
  else .returned (SigrokError.fromCode initCode)

/-- `DriverContext::drop`: runs driver cleanup and resets the native
context pointer to null, making the driver re-initializable. -/
def DriverContext.drop (d : DriverInfo) : DriverInfo :=
  { d with ctx_is_null := true }

/-! ## `Session::start_with_cancel` (`session.rs` 393-454) and `quit_loop`

The cooperative loop spawns one async task on a glib main context.  Two
one-shot signals feed it: the cancellation sender handed to the caller,
and the end signal that `quit_loop` fires when the native layer runs the
stopped callback.  The task runs

    select_biased! { _ = end_receiver => false,
                     res = cancel_recv  => { if Ok then sr_session_stop }; true }
    if keep_waiting then end_receiver.await
    main_loop.quit()

Each signal fires at most once (one-shot channels), so the concurrency
reduces to the arrival times of the two signals; `select_biased` lists
the end receiver first, so the end signal wins a tie. -/

/-- Arrival schedule of the two one-shot signals during one run. -/
structure CancelSched where
  /-- instant at which the second thread sends on the cancel sender
  (`none` when it never does). -/
  cancelAt : Option Nat
  /-- instant at which the native stopped callback (`quit_loop`) fires
  the end signal: natural completion of the acquisition. -/
  stoppedAt : Nat
deriving Repr

/-- Observable outcome of the cooperative loop: how many times
`sr_session_stop` was called, and when `main_loop.quit()` ran. -/
structure LoopOutcome where
  stopCalls : Nat
  exitAt : Nat
deriving DecidableEq, Repr

/-- The spawned task of `start_with_cancel`.  The cancel branch of the
select calls `sr_session_stop` once and sets `keep_waiting`, after which
the task still awaits the end signal before quitting the loop; the end
branch quits as soon as the end signal has fired. -/
def start_with_cancel_loop (s : CancelSched) : LoopOutcome :=
  let cancelFirst : Bool :=
    match s.cancelAt with
    | some tc => decide (tc < s.stoppedAt)
    | none => false
  if cancelFirst then
    { stopCalls := 1, exitAt := s.stoppedAt }
  else
    { stopCalls := 0, exitAt := s.stoppedAt }

/-- `futures::channel::oneshot::Sender::send` on the cancellation sender:
fails (returns the value to the sender) once the receiving task is gone,
which happens when the loop exits; no native call results either way
(the stop call only ever happens inside the loop task). -/
def cancelSenderSend (run : LoopOutcome) (t : Nat) : Except Unit Unit :=
  if run.exitAt ≤ t then .error () else .ok ()

/-! ## GVariant containers (glib, external ABI)

The tagged variant container exchanged with `sr_config_get` /
`sr_config_list`, restricted to the shapes the codec reads: basic
numerics, tuples, `u64` arrays (`"at"`) and dictionaries. -/

inductive GVar where
  | vBool (b : Bool)
  | vU32 (n : Nat)
  | vU64 (n : Nat)
  | vI32 (n : Int)
  | vStr (s : String)
  | vArrU64 (xs : List Nat)
  | vTuple (children : List GVar)
  | vDict (entries : List (String × GVar))
deriving Repr

/-- `g_variant_is_of_type(c, "r")`: is the container a tuple? -/
def GVar.isTuple : GVar → Bool
  | .vTuple _ => true
  | _ => false

/-- `g_variant_n_children` (meaningful on containers). -/
def GVar.nChildren : GVar → Nat
  | .vTuple cs => cs.length
  | .vArrU64 xs => xs.length
  | .vDict es => es.length
  | _ => 0

/-- `g_variant_get_child_value(c, i)` for tuples, with junk default for
out-of-range or non-tuple access. -/
def GVar.child (c : GVar) (i : Nat) : GVar :=
  match c with
  | .vTuple cs => (cs.get? i).getD (.vU64 0)
  | _ => .vU64 0

/-- Reading a `u32` leaf (`g_variant_get` with a `u` slot). -/
def GVar.getU32 : GVar → Nat
  | .vU32 n => n
  | _ => 0

/-- Reading a `u64` leaf (`g_variant_get` with a `t` slot). -/
def GVar.getU64 : GVar → Nat
  | .vU64 n => n
  | _ => 0

/-- `g_variant_lookup_value(dict, key, "at")`: the value stored under the
key, provided it is a `u64` array. -/
def GVar.lookupAt (c : GVar) (key : String) : Option (List Nat) :=
  match c with
  | .vDict es =>
    match es.lookup key with
    | some (.vArrU64 xs) => some xs
    | _ => none
  | _ => none

/-! ## Configuration codec (`config/set_get.rs`, `config/option.rs`)

`get` fetches a container through `sr_config_get`; the fetch itself can
fail with a translated native error, modelled by an `Except` argument.
`get_numeric_range` reads a 2-tuple with `g_variant_get("(tt)")`. -/

/-- `get_numeric_range::<u64>`: the `(low, high)` pair read from a
`"(tt)"` tuple. -/
def get_numeric_range_u64 (c : GVar) : Nat × Nat :=
  ((c.child 0).getU64, (c.child 1).getU64)

/-- `num_rational::Ratio<u64>` as handled by the codec (`Ratio::new_raw`
stores the raw pair, no reduction). -/
structure RatioU64 where
  numer : Nat
  denom : Nat
deriving DecidableEq, Repr

/-- `SetConfig for Ratio<u64>`: delegate to the
`RangeInclusive<u64>` codec on `numer..=denom`, i.e. a `u64` 2-tuple
`(numer, denom)` handed to `sr_config_set`. -/
def RatioU64.set_config (r : RatioU64) : GVar :=
  .vTuple [.vU64 r.numer, .vU64 r.denom]

/-- `GetConfig for Ratio<u64>`: fetch the container, read the `u64`
2-tuple, rebuild with `Ratio::new_raw(start, end)`. -/
def RatioU64.get_config (fetch : Except SigrokError GVar) :
    Except SigrokError RatioU64 :=
  match fetch with
  | .error e => .error e
  | .ok c =>
    let range := get_numeric_range_u64 c
    .ok { numer := range.1, denom := range.2 }

/-- `GetConfig for Mq` (`set_get.rs` 193-210): require a tuple with
exactly two children, then read the `"(ut)"` pair; the quantity type
falls back to `Voltage` on unrecognized values and the flags are
truncated to the defined bits; any other container shape is an
argument error. -/
def Mq.get_config (fetch : Except SigrokError GVar) :
    Except SigrokError Mq :=
  match fetch with
  | .error e => .error e
  | .ok c =>
    if c.isTuple && c.nChildren = 2 then
      let mq := (c.child 0).getU32
      let mq_flags := (c.child 1).getU64
      .ok { mq_type := (MqType.tryFrom mq).getD .Voltage
            flags := MqFlags.from_bits_truncate (u32OfU64 mq_flags) }
    else
      .error .Arg

/-! ## Sample-rate listing (`config/option.rs` 248-271, `config.rs`) -/

/-- `SampleRateOption` of `config/option.rs`. -/
inductive SampleRateOption where
  | Fixed (rates : List Nat)
  | Range (low high step : Nat)
  | Unknown
deriving DecidableEq, Repr

/-- `SampleRateOption::from_sigrok`: fetch the container through
`sr_config_list` (the `Option` argument is `none` when that call fails),
then prefer the `"samplerates"` fixed array, fall back to the
`"samplerate-steps"` array read as `(low, high, step)` (each `?` on the
iterator makes a short array fail), and otherwise yield `none`. -/
def SampleRateOption.from_sigrok (fetch : Option GVar) :
    Option SampleRateOption :=
  match fetch with
  | none => none
  | some variant =>
    match variant.lookupAt "samplerates" with
    | some xs => some (.Fixed xs)
    | none =>
      match variant.lookupAt "samplerate-steps" with
      | some xs =>
        match xs with
        | low :: high :: step :: _ => some (.Range low high step)
        | _ => none
      | none => none

/-- The `SR_CONF_SAMPLERATE` arm of `Config::from_sigrok` (`config.rs`):
when the key is listable, decode and replace a failed decode by the
default (`Unknown`); when not listable, the default directly. -/
def sampleRateDecode (canList : Bool) (fetch : Option GVar) :
    SampleRateOption :=
  if canList then (SampleRateOption.from_sigrok fetch).getD .Unknown
  else .Unknown

/-! ## Theorems -/

/-- C3: `Session::add_device` treats an "already active" report from the
native open call (`SR_ERR`) as success and proceeds to attach the device,
exactly as a successful open does; any other open failure is returned as
the translated native error and the device is not attached. -/
theorem add_device_idempotent_open (openCode addCode : Int) :
    (openCode = SR_ERR →
      Session.add_device openCode addCode =
        (SigrokError.fromCode addCode, true)) ∧
    (openCode = SR_OK →
      Session.add_device openCode addCode =
        (SigrokError.fromCode addCode, true)) ∧
    (∀ e, SigrokError.fromCode openCode = .error e → e ≠ .Err →
      Session.add_device openCode addCode = (.error e, false)) := by
  refine ⟨?_, ?_, ?_⟩
  · intro h
    subst h
    simp [Session.add_device, SigrokError.fromCode, SR_OK, SR_ERR]
  · intro h
    subst h
    simp [Session.add_device, SigrokError.fromCode, SR_OK]
  · intro e he hne
    unfold Session.add_device
    rw [he]
    cases e
    case Err => exact absurd rfl hne
    all_goals rfl

/-- Witness for C3: opening a device that is already active (`SR_ERR`)
followed by a successful attach yields `Ok`. -/
theorem add_device_idempotent_open_witness :
    0 < (1 : Nat) ∧ Session.add_device (-1) 0 = (Except.ok (), true) := by
  refine ⟨Nat.one_pos, ?_⟩
  have h := (add_device_idempotent_open (-1) 0).1 rfl
  rw [h]
  rfl

/-- C10: the `Ratio<u64>` set codec encodes exactly the
`(numerator, denominator)` pair as a `u64` 2-tuple, and the get codec
rebuilds the ratio with `Ratio::new_raw` from the decoded pair, so a
set-then-get round trip through an echoing container preserves both
components exactly, with no reduction of the fraction. -/
theorem ratio_set_get_roundtrip (r : RatioU64) :
    RatioU64.set_config r = .vTuple [.vU64 r.numer, .vU64 r.denom] ∧
    RatioU64.get_config (.ok (RatioU64.set_config r)) = .ok r := by
  refine ⟨rfl, ?_⟩
  simp [RatioU64.get_config, RatioU64.set_config, get_numeric_range_u64,
    GVar.child, GVar.getU64]

/-- C8: the `Mq` get codec succeeds exactly on 2-child tuple containers,
decoding the quantity type (defaulting to `Voltage` when unrecognized)
and the truncated flag bitset; every other container shape yields the
argument error, and a failed native fetch propagates its own error. -/
theorem mq_get_config_tuple_arity (c : GVar) :
    (¬ (c.isTuple = true ∧ c.nChildren = 2) →
      Mq.get_config (.ok c) = .error .Arg) ∧
    (c.isTuple = true → c.nChildren = 2 →
      Mq.get_config (.ok c) =
        .ok { mq_type := (MqType.tryFrom (c.child 0).getU32).getD .Voltage
              flags :=
                MqFlags.from_bits_truncate (u32OfU64 (c.child 1).getU64) }) ∧
    (∀ v : Nat, MqType.tryFrom v = none →
      (MqType.tryFrom v).getD .Voltage = .Voltage) ∧
    (∀ e, Mq.get_config (.error e) = .error e) := by
  refine ⟨?_, ?_, ?_, ?_⟩
  · intro h
    simp only [Mq.get_config]
    rw [if_neg]
    simp only [Bool.and_eq_true, decide_eq_true_eq]
    exact fun hc => h ⟨hc.1, hc.2⟩
  · intro h1 h2
    simp [Mq.get_config, h1, h2]
  · intro v hv
    simp [hv]
  · intro e
    rfl

/-- Witness for C8: a non-tuple container is rejected with the argument
error, and a 2-tuple with an unrecognized quantity code decodes with the
`Voltage` default. -/
theorem mq_get_config_tuple_arity_witness :
    Mq.get_config (.ok (GVar.vU64 7)) = .error .Arg ∧
    Mq.get_config (.ok (GVar.vTuple [.vU32 5, .vU64 3])) =
      .ok { mq_type := .Voltage, flags := ⟨3⟩ } := by
  constructor
  · exact (mq_get_config_tuple_arity (GVar.vU64 7)).1 (by decide)
  · have h :=
      (mq_get_config_tuple_arity (GVar.vTuple [.vU32 5, .vU64 3])).2.1
        rfl rfl
    rw [h]
    rfl

/-- C6: `Driver::init` panics when the driver's native context is already
non-null, with a message containing both the driver name and its long
name; on an uninitialized driver it returns normally (translating the
native init status). -/
theorem driver_init_panics_when_initialized (d : DriverInfo)
    (initCode : Int) :
    (d.ctx_is_null = false →
      Driver.init d initCode = .panicked (driverInitPanicMsg d) ∧
      (∃ pre post, driverInitPanicMsg d = pre ++ d.name ++ post) ∧
      (∃ pre post, driverInitPanicMsg d = pre ++ d.long_name ++ post)) ∧
    (d.ctx_is_null = true →
      Driver.init d initCode = .returned (SigrokError.fromCode initCode)) := by
  constructor
  · intro h
    refine ⟨by simp [Driver.init, h], ?_, ?_⟩
    · exact ⟨"Driver \"",
        "\" (" ++ d.long_name ++ ") already initialized",
        by simp [driverInitPanicMsg, String.append_assoc]⟩
    · exact ⟨"Driver \"" ++ d.name ++ "\" (", ") already initialized",
        by simp [driverInitPanicMsg, String.append_assoc]⟩
  · intro h
    simp [Driver.init, h]

/-- Witness for C6: a concrete initialized driver panics with a message
carrying its name and long name; the same driver uninitialized returns
normally. -/
theorem driver_init_panics_when_initialized_witness :
    Driver.init ⟨"demo", "Demo driver", false⟩ 0 =
      .panicked "Driver \"demo\" (Demo driver) already initialized" ∧
    Driver.init ⟨"demo", "Demo driver", true⟩ 0 =
      .returned (.ok ()) := by
  constructor
  · have h :=
      (driver_init_panics_when_initialized ⟨"demo", "Demo driver", false⟩ 0).1
        rfl
    rw [h.1]
    rfl
  · have h :=
      (driver_init_panics_when_initialized ⟨"demo", "Demo driver", true⟩ 0).2
        rfl
    rw [h]
    rfl

/-- C7: for a header packet with a valid native start time, the decoded
`Header` start time is exactly `tv_sec` seconds plus `tv_usec * 1000`
nanoseconds. -/
theorem header_start_time_exact (h : SrDatafeedHeader)
    (hsec0 : 0 ≤ h.starttime.tv_sec)
    (hsec : h.starttime.tv_sec < 2 ^ 64)
    (husec0 : 0 ≤ h.starttime.tv_usec)
    (husec : h.starttime.tv_usec < 1000000) :
    (decodeHeader h).start_time.totalNanos =
      h.starttime.tv_sec.toNat * 1000000000 +
        h.starttime.tv_usec.toNat * 1000 := by
  have hsecmod : h.starttime.tv_sec % (2 : Int) ^ 64 = h.starttime.tv_sec :=
    Int.emod_eq_of_lt hsec0 (by exact_mod_cast hsec)
  have husecmod : h.starttime.tv_usec % (2 : Int) ^ 32 = h.starttime.tv_usec :=
    Int.emod_eq_of_lt husec0 (by omega)
  have husecnat : h.starttime.tv_usec.toNat < 1000000 := by omega
  simp only [decodeHeader, Duration.totalNanos, Duration.new, u64OfInt,
    u32OfInt, u32Mul, NANOS_PER_SEC, hsecmod, husecmod]
  have hsmall : h.starttime.tv_usec.toNat * 1000 % 2 ^ 32 =
      h.starttime.tv_usec.toNat * 1000 := Nat.mod_eq_of_lt (by omega)
  rw [hsmall]
  have hlt : h.starttime.tv_usec.toNat * 1000 < 1000000000 := by omega
  rw [Nat.div_eq_of_lt hlt, Nat.mod_eq_of_lt hlt]
  ring

/-- Witness for C7: a start time of 3 s 250000 µs decodes to exactly
3.25 s in nanoseconds. -/
theorem header_start_time_exact_witness :
    (decodeHeader ⟨1, ⟨3, 250000⟩⟩).start_time.totalNanos = 3250000000 := by
  have h := header_start_time_exact ⟨1, ⟨3, 250000⟩⟩
    (by decide) (by decide) (by decide) (by decide)
  rw [h]
  decide

/-- C1: an analog packet decodes to one `Analog` event whose byte slice
has length exactly `num_samples * unit_size`, `unit_size` being the
encoding's bytes-per-sample field. -/
theorem analog_data_len_eq_num_samples_mul_unit_size (mem : Mem)
    (a : SrDatafeedAnalog)
    (hfit : a.num_samples * a.encoding.unitsize < 2 ^ 64) :
    sr_session_callback mem ⟨SR_DF_ANALOG, .analog a⟩ =
      [.Analog (decodeAnalog mem a)] ∧
    (decodeAnalog mem a).data.length =
      a.num_samples * a.encoding.unitsize := by
  constructor
  · simp [sr_session_callback, SR_DF_ANALOG, SR_DF_HEADER, SR_DF_LOGIC,
      SrPayload.asAnalog]
  · have hfit2 : a.num_samples * a.encoding.unitsize <
        18446744073709551616 := by
      norm_num at hfit
      exact hfit
    simp [decodeAnalog, sliceFromRawParts, usizeMul, Nat.mod_eq_of_lt hfit2]

/-- Witness for C1: 3 samples of 2 bytes each expose exactly 6 bytes. -/
theorem analog_data_len_witness :
    (decodeAnalog (fun _ => 0)
        ⟨⟨2, 0, 0, 0, 0, ⟨0, 0⟩, ⟨0, 0⟩, 0⟩, ⟨0, 0, 0⟩, 3, 0⟩).data.length
      = 6 := by
  have h := analog_data_len_eq_num_samples_mul_unit_size (fun _ => 0)
    ⟨⟨2, 0, 0, 0, 0, ⟨0, 0⟩, ⟨0, 0⟩, 0⟩, ⟨0, 0, 0⟩, 3, 0⟩ (by norm_num)
  rw [h.2]
  decide

/-- C2: the session callback invokes the user callback exactly once per
packet whose kind tag is Header, Logic, Analog, Trigger, FrameBegin,
FrameEnd or End, and zero times for any other tag (the reserved metadata
kind included); packets are handed over one at a time, in order, with no
buffering. -/
theorem session_callback_once_per_recognized (mem : Mem)
    (p : SrDatafeedPacket) (ps : List SrDatafeedPacket) :
    (sr_session_callback mem p).length =
      (if recognizedKind p.type_ then 1 else 0) ∧
    (p.type_ = SR_DF_META → sr_session_callback mem p = []) ∧
    sessionRun mem (p :: ps) =
      sr_session_callback mem p ++ sessionRun mem ps := by
  refine ⟨?_, ?_, rfl⟩
  · by_cases hrec : recognizedKind p.type_
    · have h7 : p.type_ = SR_DF_HEADER ∨ p.type_ = SR_DF_LOGIC ∨
          p.type_ = SR_DF_ANALOG ∨ p.type_ = SR_DF_END ∨
          p.type_ = SR_DF_TRIGGER ∨ p.type_ = SR_DF_FRAME_BEGIN ∨
          p.type_ = SR_DF_FRAME_END := by
        simpa [recognizedKind, or_assoc] using hrec
      rcases h7 with h | h | h | h | h | h | h <;>
        simp [sr_session_callback, h, recognizedKind, SR_DF_HEADER,
          SR_DF_LOGIC, SR_DF_ANALOG, SR_DF_END, SR_DF_META, SR_DF_TRIGGER,
          SR_DF_FRAME_BEGIN, SR_DF_FRAME_END]
    · by_cases hm : p.type_ = SR_DF_META <;>
        simp_all [sr_session_callback, recognizedKind, SR_DF_HEADER,
          SR_DF_LOGIC, SR_DF_ANALOG, SR_DF_END, SR_DF_META, SR_DF_TRIGGER,
          SR_DF_FRAME_BEGIN, SR_DF_FRAME_END]
  · intro h
    simp [sr_session_callback, h, SR_DF_HEADER, SR_DF_LOGIC, SR_DF_ANALOG,
      SR_DF_END, SR_DF_META]

/-- Witness for C2: an end-of-stream packet produces exactly one
callback invocation; a metadata packet produces none. -/
theorem session_callback_once_witness :
    (sr_session_callback (fun _ => 0) ⟨SR_DF_END, .null⟩).length = 1 ∧
    sr_session_callback (fun _ => 0) ⟨SR_DF_META, .null⟩ = [] := by
  constructor
  · have h := (session_callback_once_per_recognized (fun _ => 0)
      ⟨SR_DF_END, .null⟩ []).1
    rw [h]
    decide
  · exact (session_callback_once_per_recognized (fun _ => 0)
      ⟨SR_DF_META, .null⟩ []).2.1 rfl

/-- C4: a `Triggers` built from uniform stages is rendered as the native
structure with the same stages and matches in order; a degenerate build
(no stages, or a first/only-shape stage without matches) is the distinct
null form, which `set_triggers` passes to the native layer exactly as
"no trigger". -/
theorem triggers_roundtrip_and_empty_null (stages : List (List Trigger))
    (M : Nat) (huniform : ∀ s ∈ stages, s.length = M) :
    (stages = [] ∨ M = 0 →
      Triggers.new stages = none ∧
      Session.set_triggers (some (Triggers.new stages)) =
        Session.set_triggers none) ∧
    (stages ≠ [] → M ≠ 0 →
      ∃ t, Triggers.new stages = some t ∧
        t.stages = stages.map buildStage ∧
        t.stages.length = stages.length ∧
        ∀ st ∈ t.stages, st.matches_.length = M) := by
  constructor
  · intro hdeg
    have hnull : Triggers.new stages = none := by
      rcases hdeg with rfl | hM
      · rfl
      · subst hM
        cases stages with
        | nil => rfl
        | cons s rest =>
          have hlen : s.length = 0 := huniform s (List.mem_cons_self s rest)
          have hsnil : s = [] := List.length_eq_zero.mp hlen
          subst hsnil
          rfl
    exact ⟨hnull, by rw [hnull]; rfl⟩
  · intro hne hM
    cases stages with
    | nil => exact absurd rfl hne
    | cons s rest =>
      have hlen : s.length = M := huniform s (List.mem_cons_self s rest)
      have hsne : ¬ (s.map Trigger.toMatch = []) := by
        intro hc
        apply hM
        rw [← hlen]
        simpa using congrArg List.length hc
      refine ⟨{ stages := (s :: rest).map buildStage }, ?_, rfl, by simp, ?_⟩
      · simp [Triggers.new, buildStage, hsne]
      · intro st hst
        simp only [List.mem_map] at hst
        obtain ⟨orig, ho, rfl⟩ := hst
        simpa [buildStage] using huniform orig ho

/-- Witness for C4: the empty build is the null form (and installs as no
trigger), while a one-stage one-match build is materialized. -/
theorem triggers_roundtrip_witness :
    (Triggers.new ([] : List (List Trigger)) = none ∧
      Session.set_triggers (some (Triggers.new [])) =
        Session.set_triggers none) ∧
    (∃ t, Triggers.new [[⟨0, .Falling, 0⟩]] = some t ∧
      t.stages.length = 1) := by
  constructor
  · exact (triggers_roundtrip_and_empty_null [] 0 (by simp)).1 (Or.inl rfl)
  · obtain ⟨t, ht, hmap, hlen2, hM⟩ :=
      (triggers_roundtrip_and_empty_null [[⟨0, .Falling, 0⟩]] 1
        (by intro s hs; simp at hs; subst hs; rfl)).2 (by simp) one_ne_zero
    exact ⟨t, ht, by rw [hlen2]; rfl⟩

/-- C5: in `start_with_cancel`, a cancellation that arrives before
natural completion triggers exactly one native stop call and the loop
still exits only at the stopped notification; natural completion first
means no stop call; and a send on the cancellation sender at or after
loop exit is returned to the sender as an error (the stop call happens
only inside the loop task, so no native call results). -/
theorem start_with_cancel_race (s : CancelSched) :
    (∀ tc, s.cancelAt = some tc → tc < s.stoppedAt →
      (start_with_cancel_loop s).stopCalls = 1 ∧
      (start_with_cancel_loop s).exitAt = s.stoppedAt) ∧
    (s.cancelAt = none →
      (start_with_cancel_loop s).stopCalls = 0 ∧
      (start_with_cancel_loop s).exitAt = s.stoppedAt) ∧
    (∀ tc, s.cancelAt = some tc → s.stoppedAt ≤ tc →
      (start_with_cancel_loop s).stopCalls = 0 ∧
      (start_with_cancel_loop s).exitAt = s.stoppedAt) ∧
    (∀ t, (start_with_cancel_loop s).exitAt ≤ t →
      cancelSenderSend (start_with_cancel_loop s) t = .error ()) := by
  refine ⟨?_, ?_, ?_, ?_⟩
  · intro tc h1 h2
    simp [start_with_cancel_loop, h1, h2]
  · intro h1
    simp [start_with_cancel_loop, h1]
  · intro tc h1 h2
    simp [start_with_cancel_loop, h1, Nat.not_lt.mpr h2]
  · intro t ht
    simp [cancelSenderSend, ht]

/-- Witness for C5: cancel at 1 with completion at 5 stops once; no
cancel means no stop; a send at 7, after the exit at 5, errors. -/
theorem start_with_cancel_race_witness :
    (start_with_cancel_loop ⟨some 1, 5⟩).stopCalls = 1 ∧
    (start_with_cancel_loop ⟨none, 5⟩).stopCalls = 0 ∧
    cancelSenderSend (start_with_cancel_loop ⟨none, 5⟩) 7 = .error () := by
  refine ⟨?_, ?_, ?_⟩
  · exact ((start_with_cancel_race ⟨some 1, 5⟩).1 1 rfl (by decide)).1
  · exact ((start_with_cancel_race ⟨none, 5⟩).2.1 rfl).1
  · exact (start_with_cancel_race ⟨none, 5⟩).2.2.2 7 (by decide)

/-- Counterexample for C9: a container carrying the `"samplerate-steps"`
key with only two elements decodes to `Unknown`, not to a stepped range,
although the key is present. -/
theorem samplerate_steps_short_counterexample :
    GVar.lookupAt (.vDict [("samplerate-steps", .vArrU64 [1, 2])])
        "samplerate-steps" = some [1, 2] ∧
    sampleRateDecode true
        (some (.vDict [("samplerate-steps", .vArrU64 [1, 2])])) =
      .Unknown := by
  constructor <;> rfl

/-- C9 (amended): sample-rate decoding is total with exactly three
outcomes and never an error: a fixed candidate list when the
`"samplerates"` key is present, a stepped range when `"samplerates"` is
absent and `"samplerate-steps"` is present with at least three elements
(low, high, step), and the `Unknown` default otherwise. -/
theorem samplerate_decode_three_outcomes (canList : Bool)
    (fetch : Option GVar) :
    ((∃ xs, sampleRateDecode canList fetch = .Fixed xs) ∨
      (∃ low high step,
        sampleRateDecode canList fetch = .Range low high step) ∨
      sampleRateDecode canList fetch = .Unknown) ∧
    (∀ v, fetch = some v → canList = true →
      (∀ xs, v.lookupAt "samplerates" = some xs →
        sampleRateDecode canList fetch = .Fixed xs) ∧
      (∀ low high step rest, v.lookupAt "samplerates" = none →
        v.lookupAt "samplerate-steps" = some (low :: high :: step :: rest) →
        sampleRateDecode canList fetch = .Range low high step) ∧
      (v.lookupAt "samplerates" = none →
        v.lookupAt "samplerate-steps" = none →
        sampleRateDecode canList fetch = .Unknown)) := by
  constructor
  · cases h : sampleRateDecode canList fetch with
    | Fixed xs => exact Or.inl ⟨xs, rfl⟩
    | Range low high step => exact Or.inr (Or.inl ⟨low, high, step, rfl⟩)
    | Unknown => exact Or.inr (Or.inr rfl)
  · rintro v rfl hcl
    refine ⟨?_, ?_, ?_⟩
    · intro xs hx
      simp [sampleRateDecode, SampleRateOption.from_sigrok, hx, hcl]
    · intro low high step rest h1 h2
      simp [sampleRateDecode, SampleRateOption.from_sigrok, h1, h2, hcl]
    · intro h1 h2
      simp [sampleRateDecode, SampleRateOption.from_sigrok, h1, h2, hcl]

/-- Witness for C9 (amended): a `"samplerates"` dictionary decodes to the
fixed candidate list. -/
theorem samplerate_decode_three_outcomes_witness :
    sampleRateDecode true
        (some (.vDict [("samplerates", .vArrU64 [10, 20])])) =
      .Fixed [10, 20] :=
  ((samplerate_decode_three_outcomes true
      (some (.vDict [("samplerates", .vArrU64 [10, 20])]))).2
    _ rfl rfl).1 [10, 20] rfl

end Sigrok
